import Mathlib

/-!
Verification development for `sonar.py`, an arXiv digest mailer.

The Python source is shallowly embedded: timestamps are modelled as a
`DateTime` record of calendar fields, strings as `List Char`, the clock
reads `datetime.now()` become explicit parameters, and the external
effects (HTTP attempts, SMTP, file persistence) become explicit outcome
parameters.  Exceptions are modelled with `Except PyError`.
-/

/-! ### Characters and digits -/

def digitChar (n : Nat) : Char := Char.ofNat (48 + n)

def digitVal (c : Char) : Option Nat :=
  if 48 ≤ c.toNat ∧ c.toNat ≤ 57 then some (c.toNat - 48) else none

/-- Whitespace characters, as Python's `strptime` treats a blank in the
format string as matching one or more whitespace characters. -/
def isSpaceChar (c : Char) : Bool :=
  c = ' ' ∨ c = '\t' ∨ c = '\n' ∨ c = '\r' ∨ c = '\x0b' ∨ c = '\x0c'

/-- Zero-padded two-digit rendering, as `strftime` does for `%m`, `%d`,
`%H`, `%M`, `%S`. -/
def pad2 (n : Nat) : List Char :=
  [digitChar (n / 10 % 10), digitChar (n % 10)]

/-- Zero-padded four-digit rendering, as `strftime` does for `%Y`
on years below 10000. -/
def pad4 (n : Nat) : List Char :=
  [digitChar (n / 1000 % 10), digitChar (n / 100 % 10),
   digitChar (n / 10 % 10), digitChar (n % 10)]

/-! ### Naive datetimes (proleptic Gregorian, second precision) -/

structure DateTime where
  year : Nat
  month : Nat
  day : Nat
  hour : Nat
  minute : Nat
  second : Nat
deriving DecidableEq, Repr

def isLeap (y : Nat) : Bool :=
  (y % 4 = 0 ∧ y % 100 ≠ 0) ∨ y % 400 = 0

def daysInMonth (y m : Nat) : Nat :=
  if m = 2 then (if isLeap y then 29 else 28)
  else if m = 4 ∨ m = 6 ∨ m = 9 ∨ m = 11 then 30
  else 31

/-- Field ranges accepted by Python's `datetime` constructor. -/
def DateTime.valid (d : DateTime) : Prop :=
  1 ≤ d.year ∧ d.year ≤ 9999 ∧ 1 ≤ d.month ∧ d.month ≤ 12 ∧
  1 ≤ d.day ∧ d.day ≤ daysInMonth d.year d.month ∧
  d.hour ≤ 23 ∧ d.minute ≤ 59 ∧ d.second ≤ 59

instance (d : DateTime) : Decidable d.valid := by
  unfold DateTime.valid; infer_instance

/-- `dt + timedelta(seconds=1)` on the calendar fields. -/
def addOneSecond (d : DateTime) : DateTime :=
  if d.second < 59 then { d with second := d.second + 1 }
  else if d.minute < 59 then { d with second := 0, minute := d.minute + 1 }
  else if d.hour < 23 then { d with second := 0, minute := 0, hour := d.hour + 1 }
  else if d.day < daysInMonth d.year d.month then
    { d with second := 0, minute := 0, hour := 0, day := d.day + 1 }
  else if d.month < 12 then
    { d with second := 0, minute := 0, hour := 0, day := 1, month := d.month + 1 }
  else
    { d with second := 0, minute := 0, hour := 0, day := 1, month := 1,
             year := d.year + 1 }

/-- `dt - timedelta(days=1)` on the calendar fields. -/
def subOneDay (d : DateTime) : DateTime :=
  if 1 < d.day then { d with day := d.day - 1 }
  else if 1 < d.month then
    { d with day := daysInMonth d.year (d.month - 1), month := d.month - 1 }
  else
    { d with day := 31, month := 12, year := d.year - 1 }

/-- `dt - timedelta(days=n)`. -/
def subDays (d : DateTime) : Nat → DateTime
  | 0 => d
  | n + 1 => subOneDay (subDays d n)

/-- Injective (on valid datetimes) order key: Python `datetime` values
compare lexicographically by their fields. -/
def dateKey (d : DateTime) : Nat :=
  ((((d.year * 16 + d.month) * 32 + d.day) * 32 + d.hour) * 64 + d.minute)
    * 64 + d.second

/-! ### Exceptions -/

/-- The Python exceptions that the claims distinguish.  `keyError f`
models `KeyError` on a missing dict field `f`; `overflowError` models
the `OverflowError` that datetime arithmetic raises past
`datetime.max`; `searchUnavailable` models the `Exception` raised
after three failed API attempts; `fileNotFound` and `yamlError` are
the two exception classes the `__main__` loop catches;
`permissionError` stands for any other `OSError` during the
persistence write. -/
inductive PyError where
  | keyError (field : String)
  | overflowError
  | searchUnavailable
  | fileNotFound
  | yamlError
  | permissionError
deriving DecidableEq, Repr

/-- Python's `datetime.max` truncated to second precision: the largest
datetime `strptime` with a second-granularity format can produce. -/
def datetimeMax : DateTime := ⟨9999, 12, 31, 23, 59, 59⟩

/-- `dt + timedelta(seconds=1)` as Python executes it on a
constructor-valid, second-precision datetime: it raises
`OverflowError` when the result would pass `datetime.max` — exactly on
`datetimeMax` — and is the calendar successor otherwise. -/
def addOneSecondChecked (d : DateTime) : Except PyError DateTime :=
  if d = datetimeMax then .error .overflowError
  else .ok (addOneSecond d)

/-! ### `strftime` / `strptime` with format `"%Y-%m-%d %H:%M:%S"` -/

/-- `dt.strftime("%Y-%m-%d %H:%M:%S")`. -/
def formatTimestamp (d : DateTime) : List Char :=
  pad4 d.year ++ '-' :: pad2 d.month ++ '-' :: pad2 d.day ++
    ' ' :: pad2 d.hour ++ ':' :: pad2 d.minute ++ ':' :: pad2 d.second

/-- Read exactly four digit characters (the `%Y` directive). -/
def parse4 : List Char → Option (Nat × List Char)
  | c1 :: c2 :: c3 :: c4 :: rest =>
    match digitVal c1, digitVal c2, digitVal c3, digitVal c4 with
    | some d1, some d2, some d3, some d4 =>
      some (((d1 * 10 + d2) * 10 + d3) * 10 + d4, rest)
    | _, _, _, _ => none
  | _ => none

/-- Read one or two digit characters, greedily, failing when a third
digit follows two (the separator after the field can never match a
digit, so Python's regex alternation behaves exactly this way). -/
def parse2 : List Char → Option (Nat × List Char)
  | [] => none
  | c1 :: rest =>
    match digitVal c1 with
    | none => none
    | some d1 =>
      match rest with
      | [] => some (d1, [])
      | c2 :: rest2 =>
        match digitVal c2 with
        | none => some (d1, rest)
        | some d2 =>
          match rest2 with
          | [] => some (d1 * 10 + d2, [])
          | c3 :: _ =>
            if (digitVal c3).isSome then none else some (d1 * 10 + d2, rest2)

/-- Match one literal character of the format string. -/
def expectChar (c : Char) : List Char → Option (List Char)
  | [] => none
  | c1 :: rest => if c1 = c then some rest else none

/-- Match one or more whitespace characters (a blank in a `strptime`
format string). -/
def skipSpaces1 : List Char → Option (List Char)
  | [] => none
  | c1 :: rest =>
    if isSpaceChar c1 then
      some (rest.dropWhile isSpaceChar)
    else none

/-- `datetime.strptime(s, "%Y-%m-%d %H:%M:%S")`, returning `none` where
Python raises `ValueError`: a field out of range, a day invalid for its
month, or unconverted trailing data. -/
def parseTimestamp (s : List Char) : Option DateTime :=
  match parse4 s with
  | none => none
  | some (y, r1) =>
    match expectChar '-' r1 with
    | none => none
    | some r2 =>
      match parse2 r2 with
      | none => none
      | some (mo, r3) =>
        match expectChar '-' r3 with
        | none => none
        | some r4 =>
          match parse2 r4 with
          | none => none
          | some (da, r5) =>
            match skipSpaces1 r5 with
            | none => none
            | some r6 =>
              match parse2 r6 with
              | none => none
              | some (h, r7) =>
                match expectChar ':' r7 with
                | none => none
                | some r8 =>
                  match parse2 r8 with
                  | none => none
                  | some (mi, r9) =>
                    match expectChar ':' r9 with
                    | none => none
                    | some r10 =>
                      match parse2 r10 with
                      | none => none
                      | some (se, r11) =>
                        if r11 = [] ∧ 1 ≤ y ∧ 1 ≤ mo ∧ mo ≤ 12 ∧
                            1 ≤ da ∧ da ≤ daysInMonth y mo ∧
                            h ≤ 23 ∧ mi ≤ 59 ∧ se ≤ 59 then
                          some ⟨y, mo, da, h, mi, se⟩
                        else none

/-! ### `compute_weekly_range` (sonar.py lines 37-58)

The single `datetime.now()` read at the top of the function becomes the
explicit parameter `now`.  Python's truthiness test
`if last_run_datetime_str:` is false both for `None` and for the empty
string.  The `except ValueError` at line 50 catches only the parse
failure: the addition at line 47 can itself raise `OverflowError` (for
a parsed watermark equal to `datetime.max`), which propagates out of
the function. -/

def compute_weekly_range (last_run_datetime_str : Option (List Char))
    (now : DateTime) : Except PyError (List Char × List Char) :=
  match last_run_datetime_str with
  | some s =>
    if s = [] then
      .ok (formatTimestamp (subDays now 7), formatTimestamp now)
    else
      match parseTimestamp s with
      | some last_run_datetime =>
        -- line 47: `+ timedelta(seconds=1)`, uncaught on overflow
        match addOneSecondChecked last_run_datetime with
        | .ok start_datetime =>
          .ok (formatTimestamp start_datetime, formatTimestamp now)
        | .error e => .error e
      | none =>
        .ok (formatTimestamp (subDays now 7), formatTimestamp now)
  | none =>
    .ok (formatTimestamp (subDays now 7), formatTimestamp now)

/-! ### `search_arxiv_api` (sonar.py lines 60-123)

Each network attempt is abstracted by an `AttemptOutcome`: either
`requests.get` raised (`exn`) or it returned a response with the given
HTTP status code.  The XML body of the successful response is abstracted
as a list of already-extracted `RawEntry` values (`feedOf i` is the feed
carried by attempt `i`'s response). -/

inductive AttemptOutcome where
  | exn
  | status (code : Nat)
deriving DecidableEq, Repr

/-- The `for attempt in range(3)` retry loop: each iteration breaks on a
200 response (returning that attempt's index), and exhausting the range
raises.  `fuel` counts the remaining iterations, so the attempt index is
`3 - fuel`. -/
def retryGo (att : Nat → AttemptOutcome) : Nat → Except PyError Nat
  | 0 => .error .searchUnavailable
  | fuel + 1 =>
    let attempt := 3 - (fuel + 1)
    if att attempt = .status 200 then .ok attempt
    else retryGo att fuel

def retryLoop (att : Nat → AttemptOutcome) : Except PyError Nat :=
  retryGo att 3

/-- `search_query.replace('\n', ' ')` (line 65). -/
def cleanQuery (q : List Char) : List Char :=
  q.map fun c => if c = '\n' then ' ' else c

/-- `s.replace("-", "").replace(" ", "").replace(":", "")` (lines 68-69). -/
def stripDateSeps (s : List Char) : List Char :=
  s.filter fun c => ¬(c = '-' ∨ c = ' ' ∨ c = ':')

/-- Decimal rendering of a natural number, as Python string formatting
does for `max_results`. -/
def natToChars (n : Nat) : List Char :=
  if _h : n < 10 then [digitChar n]
  else natToChars (n / 10) ++ [digitChar (n % 10)]
decreasing_by exact Nat.div_lt_self (by omega) (by omega)

/-- The request URL built in lines 64-71. -/
def buildQueryUrl (search_query start_datetime end_datetime : List Char)
    (max_results : Nat) : List Char :=
  let cleaned := cleanQuery search_query
  let base_url := "http://export.arxiv.org/api/query?".toList
  let from_datetime := stripDateSeps start_datetime
  let to_datetime := stripDateSeps end_datetime
  base_url ++ "search_query=(".toList ++ cleaned ++
    ")+AND+submittedDate:[".toList ++ from_datetime ++ "+TO+".toList ++
    to_datetime ++ "]".toList ++ "&start=0&max_results=".toList ++
    natToChars max_results

/-- One `<entry>` element with its fields already extracted from the
XML: `comment` is `None` when the element is absent (line 103-104), the
`term` attributes may be `None` (`attrib.get("term", None)`, lines
105-106). -/
structure RawEntry where
  title : List Char
  link : List Char
  authors : List (List Char)
  updated : DateTime
  published : DateTime
  summary : List Char
  comment : Option (List Char)
  primary_category : Option (List Char)
  category_terms : List (Option (List Char))
deriving DecidableEq, Repr

/-- The result dict appended in lines 110-120. -/
structure ResultRecord where
  title : List Char
  link : List Char
  authors : List (List Char)
  updated : DateTime
  published : DateTime
  summary : List Char
  comment : List Char
  primary_category : Option (List Char)
  categories : List (Option (List Char))
deriving DecidableEq, Repr

/-- The loop body of lines 96-120 for one entry: default the comment to
the empty string, and prepend `primary_category` to the category terms
only when it is not already among them (lines 107-108). -/
def entryToResult (e : RawEntry) : ResultRecord :=
  let comment_text := e.comment.getD []
  let categories :=
    if e.primary_category ∈ e.category_terms then e.category_terms
    else e.primary_category :: e.category_terms
  { title := e.title, link := e.link, authors := e.authors,
    updated := e.updated, published := e.published, summary := e.summary,
    comment := comment_text, primary_category := e.primary_category,
    categories := categories }

/-- The comparison realising `results.sort(key=lambda x: x["published"],
reverse=True)`: `a` may precede `b` when `a.published ≥ b.published`. -/
def publishedDescLe (a b : ResultRecord) : Bool :=
  dateKey b.published ≤ dateKey a.published

/-- `search_arxiv_api` (lines 60-123): build the URL, run the bounded
retry loop, then parse and sort the successful response's entries. -/
def search_arxiv_api (search_query start_datetime end_datetime : List Char)
    (max_results : Nat) (att : Nat → AttemptOutcome)
    (feedOf : Nat → List RawEntry) : Except PyError (List ResultRecord) :=
  let _url := buildQueryUrl search_query start_datetime end_datetime max_results
  match retryLoop att with
  | .error e => .error e
  | .ok idx =>
    let results := (feedOf idx).map entryToResult
    .ok (results.mergeSort publishedDescLe)

/-! ### `process_user_data` (sonar.py lines 125-206)

The two `datetime.now()` reads become parameters: `now` is read inside
`compute_weekly_range` (line 43) at the start of the cycle, and
`persistNow` is read at line 201 when the watermark is persisted.  The
two external effects become outcome parameters: `search` summarises the
whole `search_arxiv_api` call (any exception it raises, retry
exhaustion or XML parse failure alike, is caught by lines 141-143), and
`smtp` is the SMTP send of lines 190-197.  `persist` is the outcome of
the file write at lines 202-205. -/

structure Args where
  test : Bool
  print_only : Bool
  no_update : Bool
deriving DecidableEq, Repr

/-- A user record as loaded from YAML: a dict whose fields may be
missing (subscripting a missing field raises `KeyError`). -/
structure UserData where
  user : Option (List Char)
  email_address : Option (List Char)
  search_query : Option (List Char)
  last_run : Option (List Char)
  filepath : Option (List Char)
deriving DecidableEq, Repr

inductive SearchOutcome where
  | ok (results : List ResultRecord)
  | exn
deriving DecidableEq, Repr

inductive SmtpOutcome where
  | ok
  | exn
deriving DecidableEq, Repr

inductive PersistOutcome where
  | ok
  | fileNotFound
  | otherError
deriving DecidableEq, Repr

/-- What one cycle did: `printed`/`sentViaSmtp` record the delivery
channel, `email_sent` is the flag of lines 188/194/197, `persisted`
tells whether the stored record was rewritten, and `newLastRun` is the
watermark written into it (`none` when it was not rewritten). -/
structure CycleResult where
  printed : Bool
  sentViaSmtp : Bool
  email_sent : Bool
  persisted : Bool
  newLastRun : Option (List Char)
deriving DecidableEq, Repr

def process_user_data (user_data : UserData) (args : Args)
    (now persistNow : DateTime) (search : SearchOutcome)
    (smtp : SmtpOutcome) (persist : PersistOutcome) :
    Except PyError CycleResult :=
  -- lines 126-128: subscripting raises `KeyError` on a missing field,
  -- in the order the fields are read
  match user_data.user, user_data.email_address, user_data.search_query with
  | none, _, _ => .error (.keyError "user")
  | some _, none, _ => .error (.keyError "email_address")
  | some _, some _, none => .error (.keyError "search_query")
  | some _, some _, some _ =>
    let last_run := user_data.last_run
    -- line 134 sits outside every try: an `OverflowError` raised by
    -- `compute_weekly_range` escapes this function
    match compute_weekly_range last_run now with
    | .error e => .error e
    | .ok _range =>
    match search with
    | .exn =>
      -- lines 141-143: `except Exception` logs and returns early
      .ok { printed := false, sentViaSmtp := false, email_sent := false,
            persisted := false, newLastRun := none }
    | .ok _search_results =>
      -- lines 179-182 (test mode rewrites the flags; recomputing them
      -- per user is equivalent since `args.test` itself is never cleared)
      let print_only := args.print_only || args.test
      let no_update := args.no_update || args.test
      -- lines 184-197
      let (printed, sentViaSmtp, email_sent) :=
        if print_only then (true, false, true)
        else
          match smtp with
          | .ok => (false, true, true)
          | .exn => (false, false, false)
      -- lines 199-206
      if email_sent && !no_update then
        match user_data.filepath with
        | none => .error (.keyError "filepath")
        | some _ =>
          match persist with
          | .ok =>
            .ok { printed, sentViaSmtp, email_sent, persisted := true,
                  newLastRun := some (formatTimestamp persistNow) }
          | .fileNotFound => .error .fileNotFound
          | .otherError => .error .permissionError
      else
        .ok { printed, sentViaSmtp, email_sent, persisted := false,
              newLastRun := none }

/-! ### The `__main__` directory loop (sonar.py lines 228-244) -/

/-- Outcome of `open(filepath)` + `yaml.safe_load` for one user file. -/
inductive LoadOutcome where
  | notFound
  | yamlErr
  | ok (u : UserData)
deriving DecidableEq, Repr

/-- One `.yaml` file in the users directory, together with the
environment its cycle will see. -/
structure DirItem where
  load : LoadOutcome
  path : List Char
  now : DateTime
  persistNow : DateTime
  search : SearchOutcome
  smtp : SmtpOutcome
  persist : PersistOutcome
deriving DecidableEq, Repr

/-- The two exception classes the loop's `except` arms catch
(lines 241-244). -/
def catchable : PyError → Bool
  | .fileNotFound => true
  | .yamlError => true
  | _ => false

/-- The body of the loop for one file: load the record, set
`user_data['filepath']` (line 239), process. -/
def runItem (args : Args) (it : DirItem) : Except PyError CycleResult :=
  match it.load with
  | .notFound => .error .fileNotFound
  | .yamlErr => .error .yamlError
  | .ok u =>
    process_user_data { u with filepath := some it.path } args
      it.now it.persistNow it.search it.smtp it.persist

/-- The `for filename in os.listdir(users_dir)` loop: each iteration's
exceptions are caught only when an `except` arm matches; any other
exception escapes and aborts the remaining iterations. -/
def run_users_dir (args : Args) : List DirItem → Except PyError (List CycleResult)
  | [] => .ok []
  | it :: rest =>
    match runItem args it with
    | .ok r =>
      match run_users_dir args rest with
      | .ok rs => .ok (r :: rs)
      | .error e => .error e
    | .error e =>
      if catchable e then run_users_dir args rest
      else .error e

/-! ### Concrete fixtures used to instantiate the theorems -/

def sampleUser : UserData :=
  { user := some "alice".toList,
    email_address := some "alice@example.com".toList,
    search_query := some "cat:math.CO".toList,
    last_run := none,
    filepath := some "users/alice.yaml".toList }

/-- The clock at the start of a first cycle (`now` in
`compute_weekly_range`). -/
def cexT1 : DateTime := ⟨2024, 1, 10, 12, 0, 0⟩

/-- The clock at line 201 of the same cycle, a few seconds later (the
search alone sleeps 3 seconds before its request). -/
def cexP1 : DateTime := ⟨2024, 1, 10, 12, 0, 5⟩

/-- The clock at the start of the next cycle. -/
def cexT2 : DateTime := ⟨2024, 1, 17, 9, 0, 0⟩

/-- The cycle result of a fully successful SEND-mode run persisting at
`cexP1`. -/
def cexR1 : CycleResult :=
  { printed := false, sentViaSmtp := true, email_sent := true,
    persisted := true, newLastRun := some (formatTimestamp cexP1) }

/-- The cycle result of a run whose search failed (early return). -/
def cycleNone : CycleResult :=
  { printed := false, sentViaSmtp := false, email_sent := false,
    persisted := false, newLastRun := none }

/-- The cycle result of a `--test` run: printed, delivered, nothing
persisted. -/
def cycleTestR : CycleResult :=
  { printed := true, sentViaSmtp := false, email_sent := true,
    persisted := false, newLastRun := none }

/-- A feed entry whose `primary_category` already occurs among the
listed category terms, but not first. -/
def cexEntry : RawEntry :=
  { title := "T".toList, link := "L".toList, authors := ["A".toList],
    updated := ⟨2024, 1, 2, 0, 0, 0⟩, published := ⟨2024, 1, 1, 0, 0, 0⟩,
    summary := "S".toList, comment := none,
    primary_category := some "math.CO".toList,
    category_terms := [some "math.PR".toList, some "math.CO".toList] }

/-- A feed entry published early, primary category not listed. -/
def eEarly : RawEntry :=
  { title := "early".toList, link := "L1".toList, authors := ["A".toList],
    updated := ⟨2024, 1, 2, 0, 0, 0⟩, published := ⟨2024, 1, 1, 8, 0, 0⟩,
    summary := "S1".toList, comment := none,
    primary_category := some "math.CO".toList,
    category_terms := [some "math.PR".toList] }

/-- A feed entry published later, primary category not listed. -/
def eLate : RawEntry :=
  { title := "late".toList, link := "L2".toList, authors := ["B".toList],
    updated := ⟨2024, 1, 6, 0, 0, 0⟩, published := ⟨2024, 1, 5, 9, 30, 0⟩,
    summary := "S2".toList, comment := some "C2".toList,
    primary_category := some "math.CO".toList,
    category_terms := [some "math.PR".toList] }

def sampleFeed : Nat → List RawEntry := fun _ => [eEarly, eLate]

/-- Attempts where the first request gets a 503 and the second a 200. -/
def attSucceedSecond : Nat → AttemptOutcome :=
  fun i => if i = 1 then .status 200 else .status 503

/-- A user record that is valid YAML but lacks the `user` field. -/
def badUser : UserData :=
  { user := none, email_address := some "bob@example.com".toList,
    search_query := some "cat:math.PR".toList, last_run := none,
    filepath := none }

def badItem : DirItem :=
  { load := .ok badUser, path := "users/bob.yaml".toList, now := cexT1,
    persistNow := cexP1, search := .ok [], smtp := .ok, persist := .ok }

def goodItem : DirItem :=
  { load := .ok sampleUser, path := "users/alice.yaml".toList, now := cexT1,
    persistNow := cexP1, search := .ok [], smtp := .ok, persist := .ok }

def searchFailItem : DirItem :=
  { load := .ok sampleUser, path := "users/carol.yaml".toList, now := cexT1,
    persistNow := cexP1, search := .exn, smtp := .ok, persist := .ok }

def yamlErrItem : DirItem :=
  { load := .yamlErr, path := "users/dave.yaml".toList, now := cexT1,
    persistNow := cexP1, search := .ok [], smtp := .ok, persist := .ok }

/-- A stored watermark that does not parse to `datetime.max`, so the
addition at line 47 cannot raise `OverflowError`. -/
def noOverflowWatermark : Option (List Char) → Bool
  | none => true
  | some s => parseTimestamp s != some datetimeMax

/-- The error kinds a cycle can produce that the `__main__` loop does
contain: everything except a `KeyError` on a missing required field, an
`OverflowError` from a stored watermark equal to `datetime.max`, and a
persistence `OSError` other than file-not-found. -/
def itemSafe (it : DirItem) : Bool :=
  match it.load with
  | .notFound => true
  | .yamlErr => true
  | .ok u =>
    u.user.isSome && u.email_address.isSome && u.search_query.isSome &&
      noOverflowWatermark u.last_run && it.persist != .otherError

/-! ### Helper lemmas: digits, padding, and the format round-trip -/

lemma digitVal_digitChar (k : Nat) (hk : k ≤ 9) :
    digitVal (digitChar k) = some k := by
  interval_cases k <;> rfl

lemma digitVal_digitChar_mod (k : Nat) :
    digitVal (digitChar (k % 10)) = some (k % 10) :=
  digitVal_digitChar _ (by omega)

lemma digitVal_dash : digitVal '-' = none := by decide

lemma digitVal_colon : digitVal ':' = none := by decide

lemma digitVal_space : digitVal ' ' = none := by decide

lemma isSpaceChar_space : isSpaceChar ' ' = true := by decide

lemma isSpaceChar_digitChar_mod (k : Nat) :
    isSpaceChar (digitChar (k % 10)) = false := by
  have hk : k % 10 ≤ 9 := by omega
  interval_cases h : k % 10 <;> simp_all <;> decide

lemma digitChar_mod_ne_newline (k : Nat) : digitChar (k % 10) ≠ '\n' := by
  have hk : k % 10 ≤ 9 := by omega
  interval_cases h : k % 10 <;> simp_all <;> decide

lemma daysInMonth_le_31 (y m : Nat) : daysInMonth y m ≤ 31 := by
  unfold daysInMonth
  split_ifs <;> omega

/-- `strptime` inverts `strftime` on every datetime the `datetime`
constructor accepts. -/
lemma parse_format_roundtrip (d : DateTime) (hd : d.valid) :
    parseTimestamp (formatTimestamp d) = some d := by
  obtain ⟨y, mo, da, h, mi, se⟩ := d
  dsimp only [DateTime.valid] at hd
  obtain ⟨h1, h2, h3, h4, h5, h6, h7, h8, h9⟩ := hd
  have ey : ((y / 1000 % 10 * 10 + y / 100 % 10) * 10 + y / 10 % 10) * 10
      + y % 10 = y := by omega
  have emo : mo / 10 % 10 * 10 + mo % 10 = mo := by omega
  have eda : da / 10 % 10 * 10 + da % 10 = da := by
    have := daysInMonth_le_31 y mo; omega
  have eh : h / 10 % 10 * 10 + h % 10 = h := by omega
  have emi : mi / 10 % 10 * 10 + mi % 10 = mi := by omega
  have ese : se / 10 % 10 * 10 + se % 10 = se := by omega
  simp only [formatTimestamp, pad4, pad2, parseTimestamp, parse4, parse2,
    expectChar, skipSpaces1, List.cons_append, List.nil_append,
    digitVal_digitChar_mod, digitVal_dash, digitVal_colon, digitVal_space,
    isSpaceChar_space, isSpaceChar_digitChar_mod, List.dropWhile_cons,
    Option.isSome_none, Option.isSome_some, if_true, if_false,
    Bool.false_eq_true, ite_true, ite_false, reduceIte]
  simp only [ey, emo, eda, eh, emi, ese]
  simp [h1, h3, h4, h5, h6, h7, h8, h9]

lemma formatTimestamp_ne_nil (d : DateTime) : formatTimestamp d ≠ [] := by
  simp [formatTimestamp, pad4]

/-- Adding one second strictly increases the lexicographic order key. -/
lemma dateKey_lt_addOneSecond (d : DateTime) (hd : d.valid) :
    dateKey d < dateKey (addOneSecond d) := by
  obtain ⟨y, mo, da, h, mi, se⟩ := d
  dsimp only [DateTime.valid] at hd
  obtain ⟨h1, h2, h3, h4, h5, h6, h7, h8, h9⟩ := hd
  have h31 := daysInMonth_le_31 y mo
  simp only [addOneSecond, dateKey]
  split_ifs <;> simp_all <;> omega

/-- One case analysis of `process_user_data` serving all the per-cycle
claims: the persistence rule, the persisted watermark value, the early
return on a search failure, and the delivery channel for each flag
combination. -/
lemma process_ok_spec (u : UserData) (args : Args) (now pNow : DateTime)
    (search : SearchOutcome) (smtp : SmtpOutcome) (persist : PersistOutcome)
    (r : CycleResult)
    (hr : process_user_data u args now pNow search smtp persist = Except.ok r) :
    ((r.persisted = true) ↔
      (r.email_sent = true ∧ (args.no_update || args.test) = false)) ∧
    (r.persisted = true → r.newLastRun = some (formatTimestamp pNow)) ∧
    (r.persisted = false → r.newLastRun = none) ∧
    (search = .exn → r = ⟨false, false, false, false, none⟩) ∧
    (∀ res, search = .ok res → (args.print_only || args.test) = true →
      r.printed = true ∧ r.sentViaSmtp = false ∧ r.email_sent = true) ∧
    (∀ res, search = .ok res → (args.print_only || args.test) = false →
      r.printed = false ∧ (r.email_sent = true ↔ smtp = .ok) ∧
      (r.sentViaSmtp = true ↔ smtp = .ok)) := by
  obtain ⟨ut, ue, uq, ul, uf⟩ := u
  obtain ⟨t, po, nu⟩ := args
  cases ut with
  | none => exact absurd hr (by simp [process_user_data])
  | some a =>
  cases ue with
  | none => exact absurd hr (by simp [process_user_data])
  | some b =>
  cases uq with
  | none => exact absurd hr (by simp [process_user_data])
  | some c =>
  cases hcw : compute_weekly_range ul now with
  | error e => simp [process_user_data, hcw] at hr
  | ok range0 =>
  cases search with
  | exn =>
    simp only [process_user_data, hcw] at hr
    rw [Except.ok.injEq] at hr
    subst hr
    simp
  | ok res0 =>
    cases t <;> cases po <;> cases nu <;> cases smtp <;>
      simp [process_user_data, hcw] at hr <;>
      first
        | (subst hr; simp)
        | (cases uf with
            | none => simp at hr
            | some fp =>
              cases persist with
              | ok =>
                simp at hr
                subst hr
                simp
              | fileNotFound => simp at hr
              | otherError => simp at hr)

lemma natToChars_ne_newline (n : Nat) : ∀ c ∈ natToChars n, c ≠ '\n' := by
  induction n using Nat.strong_induction_on with
  | _ n ih =>
    rw [natToChars]
    split
    · intro c hc
      simp only [List.mem_singleton] at hc
      subst hc
      rename_i hlt
      have hn : n = n % 10 := by omega
      rw [hn]
      exact digitChar_mod_ne_newline n
    · intro c hc
      rcases List.mem_append.1 hc with hm | hm
      · rename_i hge
        exact ih (n / 10) (Nat.div_lt_self (by omega) (by omega)) c hm
      · simp only [List.mem_singleton] at hm
        subst hm
        exact digitChar_mod_ne_newline n

lemma cleanQuery_no_newline (q : List Char) : '\n' ∉ cleanQuery q := by
  intro hmem
  simp only [cleanQuery, List.mem_map] at hmem
  obtain ⟨a, _, ha⟩ := hmem
  by_cases h : a = '\n' <;> simp [h] at ha

/-- Unrolling of the three-iteration retry loop. -/
lemma retryLoop_eq (att : Nat → AttemptOutcome) :
    retryLoop att =
      if att 0 = .status 200 then .ok 0
      else if att 1 = .status 200 then .ok 1
      else if att 2 = .status 200 then .ok 2
      else .error .searchUnavailable := rfl

/-- A watermark that does not parse to `datetime.max` can never make
`compute_weekly_range` raise. -/
lemma compute_weekly_range_ok_of_no_overflow (ul : Option (List Char))
    (now : DateTime) (h : noOverflowWatermark ul = true) :
    ∃ p, compute_weekly_range ul now = .ok p := by
  cases ul with
  | none => exact ⟨(formatTimestamp (subDays now 7), formatTimestamp now), rfl⟩
  | some s =>
    simp only [noOverflowWatermark, bne_iff_ne] at h
    by_cases hnil : s = []
    · subst hnil
      exact ⟨(formatTimestamp (subDays now 7), formatTimestamp now), rfl⟩
    · cases hp : parseTimestamp s with
      | none =>
        exact ⟨(formatTimestamp (subDays now 7), formatTimestamp now),
          by simp [compute_weekly_range, hnil, hp]⟩
      | some d =>
        have hd : d ≠ datetimeMax := fun hdm => h (by rw [hp, hdm])
        exact ⟨(formatTimestamp (addOneSecond d), formatTimestamp now),
          by simp [compute_weekly_range, hnil, hp, addOneSecondChecked, hd]⟩

/-- On an `itemSafe` item the loop body either completes or raises one
of the two exception classes the loop catches. -/
lemma runItem_no_escape (args : Args) (it : DirItem)
    (hs : itemSafe it = true) :
    (∃ r, runItem args it = .ok r) ∨
    (∃ e, runItem args it = .error e ∧ catchable e = true) := by
  obtain ⟨load, path, now, pNow, search, smtp, persist⟩ := it
  cases load with
  | notFound => exact .inr ⟨.fileNotFound, rfl, rfl⟩
  | yamlErr => exact .inr ⟨.yamlError, rfl, rfl⟩
  | ok u =>
    obtain ⟨ut, ue, uq, ul, uf⟩ := u
    simp only [itemSafe, Bool.and_eq_true, bne_iff_ne] at hs
    obtain ⟨⟨⟨⟨hu, he⟩, hq⟩, hno⟩, hp⟩ := hs
    rw [Option.isSome_iff_exists] at hu he hq
    obtain ⟨a, rfl⟩ := hu
    obtain ⟨b, rfl⟩ := he
    obtain ⟨c, rfl⟩ := hq
    obtain ⟨range0, hcw⟩ := compute_weekly_range_ok_of_no_overflow ul now hno
    simp only [runItem, process_user_data, hcw]
    cases search with
    | exn => exact .inl ⟨_, rfl⟩
    | ok res0 =>
      obtain ⟨t, po, nu⟩ := args
      cases t <;> cases po <;> cases nu <;> cases smtp <;> cases persist <;>
        first
          | exact .inl ⟨_, rfl⟩
          | exact .inr ⟨.fileNotFound, rfl, rfl⟩
          | exact absurd rfl hp

/-! ### The claims -/

/-- C3 counterexample: the watermark `"9999-12-31 23:59:59"` is a valid
canonical timestamp (it parses, to `datetime.max` at second precision),
yet `compute_weekly_range` raises for it: line 47's
`+ timedelta(seconds=1)` raises `OverflowError`, which the
`except ValueError` at line 50 does not catch — refuting "returns
without raising" for every valid canonical watermark. -/
theorem C3_never_raises_counterexample :
    parseTimestamp "9999-12-31 23:59:59".toList = some datetimeMax ∧
    compute_weekly_range (some "9999-12-31 23:59:59".toList) cexT2 =
      Except.error PyError.overflowError :=
  ⟨by decide, rfl⟩

/-- C3 as amended: `compute_weekly_range` returns without raising for
every watermark whose parse is not `datetime.max`: an absent watermark
gives the 7-day fallback window; a watermark parsing in the canonical
format to some datetime below `datetime.max` gives the window
[watermark + 1 second, now]; a parsed watermark equal to `datetime.max`
raises `OverflowError` (uncaught by the `except ValueError`); an
unparseable watermark falls back to the 7-day window, and this fallback
itself never raises. -/
theorem C3_compute_window_cases (wm : Option (List Char))
    (now : DateTime) :
    (wm = none →
      compute_weekly_range wm now =
        .ok (formatTimestamp (subDays now 7), formatTimestamp now)) ∧
    (∀ s d, wm = some s → parseTimestamp s = some d → d ≠ datetimeMax →
      compute_weekly_range wm now =
        .ok (formatTimestamp (addOneSecond d), formatTimestamp now)) ∧
    (∀ s, wm = some s → parseTimestamp s = some datetimeMax →
      compute_weekly_range wm now = .error .overflowError) ∧
    (∀ s, wm = some s → parseTimestamp s = none →
      compute_weekly_range wm now =
        .ok (formatTimestamp (subDays now 7), formatTimestamp now)) := by
  refine ⟨fun h => by subst h; rfl, ?_, ?_, ?_⟩
  · intro s d hs hp hd
    subst hs
    have hne : s ≠ [] := by
      intro h
      subst h
      simp [parseTimestamp, parse4] at hp
    simp [compute_weekly_range, hne, hp, addOneSecondChecked, hd]
  · intro s hs hp
    subst hs
    have hne : s ≠ [] := by
      intro h
      subst h
      simp [parseTimestamp, parse4] at hp
    simp [compute_weekly_range, hne, hp, addOneSecondChecked]
  · intro s hs hp
    subst hs
    by_cases hne : s = []
    · subst hne
      simp [compute_weekly_range]
    · simp [compute_weekly_range, hne, hp]

/-- Witness for the amended C3 at a concrete parseable watermark. -/
theorem C3_compute_window_cases_witness :
    compute_weekly_range (some "2024-01-10 12:00:05".toList) cexT2 =
      .ok (formatTimestamp (addOneSecond ⟨2024, 1, 10, 12, 0, 5⟩),
        formatTimestamp cexT2) :=
  (C3_compute_window_cases (some "2024-01-10 12:00:05".toList)
    cexT2).2.1 "2024-01-10 12:00:05".toList ⟨2024, 1, 10, 12, 0, 5⟩ rfl
    (by decide) (by decide)

/-- C1: for a cycle that completes, the stored watermark is rewritten
iff delivery succeeded (`email_sent`, which covers both the SMTP send
and print-only mode) and persistence is not suppressed by the effective
no-update flag; in particular a pure SEND-mode cycle whose SMTP
delivery raises leaves the stored record unchanged. -/
theorem C1_watermark_persisted_iff_delivery (u : UserData) (args : Args)
    (now pNow : DateTime) (search : SearchOutcome) (smtp : SmtpOutcome)
    (persist : PersistOutcome) (r : CycleResult)
    (hr : process_user_data u args now pNow search smtp persist =
      Except.ok r) :
    (r.persisted = true ↔
      (r.email_sent = true ∧ (args.no_update || args.test) = false)) ∧
    (args.test = false → args.print_only = false → smtp = .exn →
      r.persisted = false ∧ r.newLastRun = none) := by
  obtain ⟨hiff, _hsome, hnone, hexn, _hprint, hsend⟩ :=
    process_ok_spec u args now pNow search smtp persist r hr
  refine ⟨hiff, fun ht hp hs => ?_⟩
  have hper : r.persisted = false := by
    cases search with
    | exn => rw [hexn rfl]
    | ok res0 =>
      obtain ⟨_, hes, _⟩ := hsend res0 rfl (by simp [hp, ht])
      cases hq : r.persisted
      · rfl
      · have hok := hes.mp (hiff.mp hq).1
        rw [hs] at hok
        exact absurd hok (by simp)
  exact ⟨hper, hnone hper⟩

/-- Witness for C1: a SEND-mode cycle whose SMTP delivery raises. -/
theorem C1_watermark_persisted_iff_delivery_witness :
    (cycleNone.persisted = true ↔
      (cycleNone.email_sent = true ∧ (false || false) = false)) ∧
    (false = false → false = false → SmtpOutcome.exn = SmtpOutcome.exn →
      cycleNone.persisted = false ∧ cycleNone.newLastRun = none) :=
  C1_watermark_persisted_iff_delivery sampleUser ⟨false, false, false⟩
    cexT1 cexP1 (.ok []) .exn .ok cycleNone rfl

/-- C7: with `--test` the cycle prints the digest instead of sending it
and never persists the watermark, whatever `--no-update` says; with
`--print-only` alone the digest is printed, counts as delivered, and the
watermark is still persisted. -/
theorem C7_test_and_print_only_modes (u : UserData) (args : Args)
    (now pNow : DateTime) (res : List ResultRecord) (smtp : SmtpOutcome)
    (persist : PersistOutcome) (r : CycleResult)
    (hr : process_user_data u args now pNow (.ok res) smtp persist =
      Except.ok r) :
    (args.test = true →
      r.printed = true ∧ r.sentViaSmtp = false ∧ r.persisted = false ∧
      r.newLastRun = none) ∧
    (args.test = false → args.print_only = true → args.no_update = false →
      r.printed = true ∧ r.sentViaSmtp = false ∧ r.email_sent = true ∧
      r.persisted = true) := by
  obtain ⟨hiff, _hsome, hnone, _hexn, hprint, _hsend⟩ :=
    process_ok_spec u args now pNow (.ok res) smtp persist r hr
  constructor
  · intro ht
    obtain ⟨p1, p2, _p3⟩ := hprint res rfl (by simp [ht])
    have hper : r.persisted = false := by
      cases hq : r.persisted
      · rfl
      · have := (hiff.mp hq).2
        simp [ht] at this
    exact ⟨p1, p2, hper, hnone hper⟩
  · intro ht hp hn
    obtain ⟨p1, p2, p3⟩ := hprint res rfl (by simp [hp])
    exact ⟨p1, p2, p3, hiff.mpr ⟨p3, by simp [hn, ht]⟩⟩

/-- Witness for C7: a `--test` cycle. -/
theorem C7_test_and_print_only_modes_witness :
    cycleTestR.printed = true ∧ cycleTestR.sentViaSmtp = false ∧
    cycleTestR.persisted = false ∧ cycleTestR.newLastRun = none :=
  (C7_test_and_print_only_modes sampleUser ⟨true, false, false⟩ cexT1 cexP1
    [] .ok .ok cycleTestR rfl).1 rfl

/-- C10: a persisted watermark is exactly the canonical
`strftime("%Y-%m-%d %H:%M:%S")` rendering of the persist-time clock, it
parses back under `strptime` with the same format, and feeding it into
the next cycle's `compute_weekly_range` always takes the valid-parse
branch — never the 7-day fallback — computing the start exactly as
Python computes watermark + 1 second: the window
[watermark + 1 second, now] below `datetime.max`, and the (for a real
clock unreachable) `OverflowError` exactly where Python's addition
raises it. -/
theorem C10_watermark_roundtrip (u : UserData) (args : Args)
    (now pNow : DateTime) (search : SearchOutcome) (smtp : SmtpOutcome)
    (persist : PersistOutcome) (r : CycleResult)
    (hr : process_user_data u args now pNow search smtp persist =
      Except.ok r)
    (hp : r.persisted = true) (hv : pNow.valid) :
    r.newLastRun = some (formatTimestamp pNow) ∧
    parseTimestamp (formatTimestamp pNow) = some pNow ∧
    (∀ t2, compute_weekly_range r.newLastRun t2 =
      Except.map (fun st => (formatTimestamp st, formatTimestamp t2))
        (addOneSecondChecked pNow)) := by
  obtain ⟨_, hsome, _, _, _, _⟩ :=
    process_ok_spec u args now pNow search smtp persist r hr
  have hnl := hsome hp
  have hparse := parse_format_roundtrip pNow hv
  refine ⟨hnl, hparse, fun t2 => ?_⟩
  rw [hnl]
  cases hch : addOneSecondChecked pNow with
  | ok st =>
    simp [compute_weekly_range, formatTimestamp_ne_nil pNow, hparse, hch,
      Except.map]
  | error e =>
    simp [compute_weekly_range, formatTimestamp_ne_nil pNow, hparse, hch,
      Except.map]

/-- Witness for C10 at a concrete successful SEND-mode run. -/
theorem C10_watermark_roundtrip_witness :
    cexR1.newLastRun = some (formatTimestamp cexP1) ∧
    parseTimestamp (formatTimestamp cexP1) = some cexP1 ∧
    (∀ t2, compute_weekly_range cexR1.newLastRun t2 =
      Except.map (fun st => (formatTimestamp st, formatTimestamp t2))
        (addOneSecondChecked cexP1)) :=
  C10_watermark_roundtrip sampleUser ⟨false, false, false⟩ cexT1 cexP1
    (.ok []) .ok .ok cexR1 rfl rfl (by decide)

/-- C2 counterexample: in a fully successful first run the window end is
the cycle-start clock `cexT1`, but the watermark written at line 201 is
the later persist-time clock `cexP1`, so the next cycle's window starts
at `cexP1 + 1s`, not at `window(T1).end + 1s`: the five seconds between
`cexT1` and `cexP1` are never queried. -/
theorem C2_no_gap_counterexample :
    process_user_data sampleUser ⟨false, false, false⟩ cexT1 cexP1
      (.ok []) .ok .ok = Except.ok cexR1 ∧
    compute_weekly_range sampleUser.last_run cexT1 =
      .ok (formatTimestamp (subDays cexT1 7), formatTimestamp cexT1) ∧
    cexR1.persisted = true ∧
    compute_weekly_range cexR1.newLastRun cexT2 =
      .ok (formatTimestamp (addOneSecond cexP1), formatTimestamp cexT2) ∧
    formatTimestamp (addOneSecond cexP1) ≠
      formatTimestamp (addOneSecond cexT1) :=
  ⟨rfl, rfl, rfl, rfl, by decide⟩

/-- C2 as amended: after a persisting run, the next window's start is
the *persisted watermark* plus one second — computed exactly as Python
computes it, the successor below `datetime.max` and `OverflowError` at
it — where the watermark is the persist-time clock `p1`, not the window
end `now1`; since `p1 ≥ now1` this still guarantees no overlap (the
next start is strictly after the previous end), but not the claimed
no-gap equality. -/
theorem C2_window_start_follows_persisted_watermark (u : UserData)
    (args : Args) (now1 p1 : DateTime) (search : SearchOutcome)
    (smtp : SmtpOutcome) (persist : PersistOutcome) (r : CycleResult)
    (t2 : DateTime)
    (hr : process_user_data u args now1 p1 search smtp persist =
      Except.ok r)
    (hp : r.persisted = true) (hv : p1.valid)
    (hle : dateKey now1 ≤ dateKey p1) :
    compute_weekly_range r.newLastRun t2 =
      Except.map (fun st => (formatTimestamp st, formatTimestamp t2))
        (addOneSecondChecked p1) ∧
    dateKey now1 < dateKey (addOneSecond p1) := by
  obtain ⟨_, hsome, _, _, _, _⟩ :=
    process_ok_spec u args now1 p1 search smtp persist r hr
  have hnl := hsome hp
  have hparse := parse_format_roundtrip p1 hv
  constructor
  · rw [hnl]
    cases hch : addOneSecondChecked p1 with
    | ok st =>
      simp [compute_weekly_range, formatTimestamp_ne_nil p1, hparse, hch,
        Except.map]
    | error e =>
      simp [compute_weekly_range, formatTimestamp_ne_nil p1, hparse, hch,
        Except.map]
  · exact lt_of_le_of_lt hle (dateKey_lt_addOneSecond p1 hv)

/-- Witness for the amended C2 at the concrete two-run scenario. -/
theorem C2_window_start_follows_persisted_watermark_witness :
    compute_weekly_range cexR1.newLastRun cexT2 =
      Except.map (fun st => (formatTimestamp st, formatTimestamp cexT2))
        (addOneSecondChecked cexP1) ∧
    dateKey cexT1 < dateKey (addOneSecond cexP1) :=
  C2_window_start_follows_persisted_watermark sampleUser
    ⟨false, false, false⟩ cexT1 cexP1 (.ok []) .ok .ok cexR1 cexT2 rfl rfl
    (by decide) (by decide)

/-- C4: the search makes at most 3 attempts (the outcome depends only on
attempts 0-2), returns the feed of the first attempt with status 200,
and when none of the 3 attempts has status 200 (transport exception or
non-success code) it fails with the search-unavailable error raised to
the caller instead of retrying further. -/
theorem C4_search_retries_three_attempts (q f t : List Char) (m : Nat)
    (att : Nat → AttemptOutcome) (feedOf : Nat → List RawEntry) :
    (∀ att2, (∀ i, i < 3 → att i = att2 i) →
      search_arxiv_api q f t m att feedOf =
        search_arxiv_api q f t m att2 feedOf) ∧
    (∀ i, i < 3 → att i = .status 200 →
      (∀ j, j < i → att j ≠ .status 200) →
      search_arxiv_api q f t m att feedOf =
        .ok (((feedOf i).map entryToResult).mergeSort publishedDescLe)) ∧
    ((∀ i, i < 3 → att i ≠ .status 200) →
      search_arxiv_api q f t m att feedOf = .error .searchUnavailable) := by
  refine ⟨?_, ?_, ?_⟩
  · intro att2 hsame
    have h0 := hsame 0 (by omega)
    have h1 := hsame 1 (by omega)
    have h2 := hsame 2 (by omega)
    simp [search_arxiv_api, retryLoop_eq, h0, h1, h2]
  · intro i hi h200 hfirst
    interval_cases i
    · simp [search_arxiv_api, retryLoop_eq, h200]
    · have hj0 := hfirst 0 (by omega)
      simp [search_arxiv_api, retryLoop_eq, h200, hj0]
    · have hj0 := hfirst 0 (by omega)
      have hj1 := hfirst 1 (by omega)
      simp [search_arxiv_api, retryLoop_eq, h200, hj0, hj1]
  · intro hall
    have h0 := hall 0 (by omega)
    have h1 := hall 1 (by omega)
    have h2 := hall 2 (by omega)
    simp [search_arxiv_api, retryLoop_eq, h0, h1, h2]

/-- Witness for C4 where the first attempt gets a 503 and the second a
200. -/
theorem C4_search_retries_three_attempts_witness :
    search_arxiv_api [] [] [] 0 attSucceedSecond sampleFeed =
      .ok (((sampleFeed 1).map entryToResult).mergeSort publishedDescLe) :=
  (C4_search_retries_three_attempts [] [] [] 0 attSucceedSecond
    sampleFeed).2.1 1 (by omega) rfl
    (by intro j hj; interval_cases j; decide)

/-- C5 counterexample: a feed entry listing its primary category
second: line 107's membership test skips the prepend, so the record's
`primary_category` is in `categories` but is not its first element,
refuting the claimed "is its first element" invariant. -/
theorem C5_primary_category_first_counterexample :
    search_arxiv_api [] [] [] 0 (fun _ => .status 200)
      (fun _ => [cexEntry]) = .ok [entryToResult cexEntry] ∧
    (entryToResult cexEntry).primary_category ∈
      (entryToResult cexEntry).categories ∧
    (entryToResult cexEntry).categories.head? ≠
      some (entryToResult cexEntry).primary_category := by
  refine ⟨?_, by decide, by decide⟩
  simp [search_arxiv_api, retryLoop_eq, List.mergeSort_singleton]

/-- C5 as amended: for every record of a successful search,
`primary_category` is an element of `categories`; it is the first
element whenever the feed entry did not already list it among its
category terms (the prepend case). -/
theorem C5_primary_category_membership (q f t : List Char) (m : Nat)
    (att : Nat → AttemptOutcome) (feedOf : Nat → List RawEntry)
    (rs : List ResultRecord)
    (h : search_arxiv_api q f t m att feedOf = .ok rs)
    (r : ResultRecord) (hr : r ∈ rs) :
    r.primary_category ∈ r.categories ∧
    ∃ e, r = entryToResult e ∧
      (e.primary_category ∉ e.category_terms →
        r.categories.head? = some r.primary_category) := by
  unfold search_arxiv_api at h
  cases hrl : retryLoop att with
  | error e =>
    rw [hrl] at h
    exact absurd h (by simp)
  | ok idx =>
    rw [hrl] at h
    simp only [Except.ok.injEq] at h
    subst h
    rw [List.mem_mergeSort] at hr
    obtain ⟨e, _he, rfl⟩ := List.mem_map.1 hr
    refine ⟨?_, e, rfl, fun hnm => ?_⟩
    · by_cases hmem : e.primary_category ∈ e.category_terms <;>
        simp [entryToResult, hmem]
    · simp [entryToResult, hnm]

/-- Witness for the amended C5 on a concrete prepend-case entry. -/
theorem C5_primary_category_membership_witness :
    (entryToResult eLate).primary_category ∈
      (entryToResult eLate).categories ∧
    ∃ e, entryToResult eLate = entryToResult e ∧
      (e.primary_category ∉ e.category_terms →
        (entryToResult eLate).categories.head? =
          some (entryToResult eLate).primary_category) :=
  C5_primary_category_membership [] [] [] 0 (fun _ => .status 200)
    sampleFeed _ rfl (entryToResult eLate)
    (by rw [List.mem_mergeSort]; decide)

/-- C6: every successful search returns its records sorted by the
`published` timestamp in non-increasing (most recent first) order. -/
theorem C6_results_sorted_descending (q f t : List Char) (m : Nat)
    (att : Nat → AttemptOutcome) (feedOf : Nat → List RawEntry)
    (rs : List ResultRecord)
    (h : search_arxiv_api q f t m att feedOf = .ok rs) :
    rs.Pairwise (fun a b => dateKey b.published ≤ dateKey a.published) := by
  unfold search_arxiv_api at h
  cases hrl : retryLoop att with
  | error e =>
    rw [hrl] at h
    exact absurd h (by simp)
  | ok idx =>
    rw [hrl] at h
    simp only [Except.ok.injEq] at h
    subst h
    have hs := @List.sorted_mergeSort ResultRecord publishedDescLe
      (fun a b c hab hbc => by
        simp only [publishedDescLe, decide_eq_true_eq] at *
        omega)
      (fun a b => by
        simp only [publishedDescLe, Bool.or_eq_true, decide_eq_true_eq]
        omega)
      ((feedOf idx).map entryToResult)
    exact hs.imp fun hab => by
      simpa [publishedDescLe] using hab

/-- Witness for C6 on a concrete two-entry feed arriving out of order. -/
theorem C6_results_sorted_descending_witness :
    (((sampleFeed 0).map entryToResult).mergeSort publishedDescLe).Pairwise
      (fun a b => dateKey b.published ≤ dateKey a.published) :=
  C6_results_sorted_descending [] [] [] 0 (fun _ => .status 200)
    sampleFeed _ rfl

/-- C9: the query string is cleaned of newlines (each replaced by a
space) before the request URL is built, so the URL contains no newline
whatever the stored query contains, given that the two window strings
are newline-free. -/
theorem C9_query_newlines_replaced (q f t : List Char) (m : Nat)
    (hf : '\n' ∉ f) (ht : '\n' ∉ t) :
    '\n' ∉ buildQueryUrl q f t m := by
  intro hmem
  simp only [buildQueryUrl, List.mem_append] at hmem
  rcases hmem with ((((((((hm | hm) | hm) | hm) | hm) | hm) | hm) | hm) |
    hm) | hm
  · exact absurd hm (by decide)
  · exact absurd hm (by decide)
  · exact cleanQuery_no_newline q hm
  · exact absurd hm (by decide)
  · exact hf (List.mem_filter.1 hm).1
  · exact absurd hm (by decide)
  · exact ht (List.mem_filter.1 hm).1
  · exact absurd hm (by decide)
  · exact absurd hm (by decide)
  · exact natToChars_ne_newline m '\n' hm rfl

/-- Witness for C9 on a query containing a newline. -/
theorem C9_query_newlines_replaced_witness :
    '\n' ∉ buildQueryUrl "cat:math.CO\nAND cat:math.PR".toList
      "20240103120000".toList "20240110120000".toList 100 :=
  C9_query_newlines_replaced "cat:math.CO\nAND cat:math.PR".toList
    "20240103120000".toList "20240110120000".toList 100 (by decide)
    (by decide)

/-- C8 counterexample: the directory loop catches only
`FileNotFoundError` and `yaml.YAMLError`; a user record that is valid
YAML but lacks the required `user` field raises `KeyError` inside
`process_user_data`, which escapes the loop and aborts the batch — the
well-formed user queued after it is never processed (alone, that second
user processes fine). -/
theorem C8_keyerror_escapes_counterexample :
    run_users_dir ⟨false, false, false⟩ [badItem, goodItem] =
      Except.error (PyError.keyError "user") ∧
    run_users_dir ⟨false, false, false⟩ [goodItem] =
      Except.ok [cexR1] :=
  ⟨rfl, rfl⟩

/-- C8 as amended: search failures and delivery failures are contained
inside the cycle, and unreadable files, YAML parse errors, and even a
`FileNotFoundError` during persistence are caught by the loop, so a
batch of such items always completes; only a `KeyError` from a missing
required field or a non-file-not-found persistence error escapes. -/
theorem C8_contained_errors_no_abort (args : Args) (items : List DirItem)
    (h : ∀ it ∈ items, itemSafe it = true) :
    ∃ rs, run_users_dir args items = Except.ok rs := by
  induction items with
  | nil => exact ⟨[], rfl⟩
  | cons it rest ih =>
    obtain ⟨rs, hrs⟩ := ih fun x hx => h x (List.mem_cons_of_mem _ hx)
    rcases runItem_no_escape args it (h it (List.mem_cons_self _ _)) with
      ⟨r, hri⟩ | ⟨e, he, hc⟩
    · exact ⟨r :: rs, by simp [run_users_dir, hri, hrs]⟩
    · exact ⟨rs, by simp [run_users_dir, he, hc, hrs]⟩

/-- Witness for the amended C8: a batch mixing a successful user, a
user whose search fails, and an unparseable file completes without
aborting. -/
theorem C8_contained_errors_no_abort_witness :
    ∃ rs, run_users_dir ⟨false, false, false⟩
      [goodItem, searchFailItem, yamlErrItem] = Except.ok rs :=
  C8_contained_errors_no_abort ⟨false, false, false⟩
    [goodItem, searchFailItem, yamlErrItem] (by decide)
